import Mathlib

/-!
Shallow embedding of the `py-microservice-auth` management client
(`DatabasePanel.jsx`, `App.jsx`, `ServerStatus.jsx`, `Login.jsx`, `store.js`)
together with spec-modelled definitions of the backend operations that the
repository snapshot does not contain (Switchboard `list`/`add`-validation/
`remove`, Credential Store `listUsers`, Token Index `issue`, Health Registry
`query`).

Asynchronous handlers are embedded as pure state transformers: a settled
`fetch` is represented by a `FetchOutcome` value (a parsed JSON envelope, or a
thrown exception message), and each handler maps the component state and the
outcome(s) of its network calls to the component state after the handler's
`finally` block has run.
-/

namespace AuthUI

/-- JS truthiness of an optional string field: an absent field (`undefined`)
and the empty string are both falsy. -/
def strTruthy : Option String → Bool
  | some s => s != ""
  | none => false

/-- JS `m || fb` for an optional string `m`: yields `m`'s value when it is a
non-empty string, otherwise the fallback `fb`. -/
def jsOr (m : Option String) (fb : String) : String :=
  if strTruthy m then m.getD fb else fb

/-- JS truthiness of an optional numeric field: absent and `0` are falsy. -/
def intTruthy : Option Int → Bool
  | some n => n != 0
  | none => false

/-- JS string interpolation of a possibly-absent field: `undefined`
interpolates as the string "undefined". -/
def jsInterp (m : Option String) : String := m.getD "undefined"

/-- The request/response envelope the management API uses: a numeric status
code (`0` = success), a human-readable message (possibly absent or empty in a
concrete response), and an operation-specific payload. -/
structure Envelope (α : Type) where
  code : Int
  message : Option String
  data : α
  deriving Repr, DecidableEq

/-- How one awaited `fetch` settles, as seen by the handler's `try`/`catch`:
either a parsed JSON envelope, or a thrown exception with a message
(network failure, abort, JSON parse error). -/
inductive FetchOutcome (α : Type) where
  | ok (env : Envelope α)
  | exn (msg : String)
  deriving Repr, DecidableEq

/-- A database connection descriptor as the wire/UI sees it
(`DatabasePanel.jsx`): kind-specific parameter fields are optional. -/
structure Db where
  id : Int
  name : String
  type : String
  path : Option String := none
  host : Option String := none
  port : Option Int := none
  database : Option String := none
  username : Option String := none
  password : Option String := none
  is_default : Bool := false
  is_removable : Bool := true
  deriving Repr, DecidableEq

/-- Payload of a successful `GET /manage/api/databases` response. -/
structure DbListData where
  databases : List Db
  current_database_id : Int
  deriving Repr, DecidableEq

/-- The `DatabasePanel` component state relevant to the handlers. -/
structure DbPanelState where
  databases : List Db := []
  currentDbId : Int := 0
  selectedDb : Option Db := none
  loading : Bool := false
  error : Option String := none
  deriving Repr, DecidableEq

/-- `fetchDatabases` from `DatabasePanel.jsx`: on `code = 0` stores both the
descriptor list and the current active id from the same envelope, otherwise
surfaces `result.message || 'Failed to fetch databases'`; exceptions surface
a prefixed message; `loading` is set on entry and reset in `finally`. -/
def fetchDatabases (s : DbPanelState) (o : FetchOutcome DbListData) : DbPanelState :=
  let s1 := { s with loading := true, error := none }
  let s2 :=
    match o with
    | .ok r =>
      if r.code = 0 then
        { s1 with databases := r.data.databases, currentDbId := r.data.current_database_id }
      else
        { s1 with error := some (jsOr r.message "Failed to fetch databases") }
    | .exn m => { s1 with error := some ("Error fetching databases: " ++ m) }
  { s2 with loading := false }

/-- `handleSwitchDatabase` from `DatabasePanel.jsx`. The `code = 0` branch
fires `fetchDatabases()` without awaiting it; `refresh` is that call's
outcome, applied here before the outer `finally` (the interleaving does not
affect the final state's `loading`, which every path resets to `false`). -/
def handleSwitchDatabase (s : DbPanelState) (o : FetchOutcome Unit)
    (refresh : FetchOutcome DbListData) : DbPanelState :=
  let s1 := { s with loading := true, error := none }
  let s2 :=
    match o with
    | .ok r =>
      if r.code = 0 then fetchDatabases s1 refresh
      else { s1 with error := some (jsOr r.message "Failed to switch database") }
    | .exn m => { s1 with error := some ("Error switching database: " ++ m) }
  { s2 with loading := false }

/-- `addDatabase` from `DatabasePanel.jsx` (the POST of an already-built
request body; the body itself is built by `handleAddDatabase`). -/
def addDatabase (s : DbPanelState) (o : FetchOutcome Unit)
    (refresh : FetchOutcome DbListData) : DbPanelState :=
  let s1 := { s with loading := true, error := none }
  let s2 :=
    match o with
    | .ok r =>
      if r.code = 0 then fetchDatabases s1 refresh
      else { s1 with error := some (jsOr r.message "Failed to add database") }
    | .exn m => { s1 with error := some ("Error adding database: " ++ m) }
  { s2 with loading := false }

/-- `handleRemoveDatabase` from `DatabasePanel.jsx`: on success clears the
selection and refreshes the list. -/
def handleRemoveDatabase (s : DbPanelState) (o : FetchOutcome Unit)
    (refresh : FetchOutcome DbListData) : DbPanelState :=
  let s1 := { s with loading := true, error := none }
  let s2 :=
    match o with
    | .ok r =>
      if r.code = 0 then fetchDatabases { s1 with selectedDb := none } refresh
      else { s1 with error := some (jsOr r.message "Failed to remove database") }
    | .exn m => { s1 with error := some ("Error removing database: " ++ m) }
  { s2 with loading := false }

/-- JS `String.prototype.toLowerCase` on the ASCII kind names this UI deals
in: lower-case every character. (Defined by structural recursion over the
character list so that it evaluates by kernel reduction.) -/
def toLowerJS (s : String) : String := ⟨s.data.map Char.toLower⟩

/-- A JS number as produced by `parseInt`: either an integer or `NaN`. -/
inductive JSNum where
  | nan
  | int (n : Int)
  deriving Repr, DecidableEq

/-- Digit-run parsing underlying `parseInt`: the longest leading run of
decimal digits, with the given sign; `NaN` when there is no digit. -/
def parseDigits (cs : List Char) (sign : Int) : JSNum :=
  let ds := cs.takeWhile Char.isDigit
  if ds.isEmpty then .nan
  else .int (sign * Int.ofNat (ds.foldl (fun a c => a * 10 + (c.toNat - 48)) 0))

/-- JS `parseInt(s)` (radix 10): skip leading whitespace, optional sign,
longest digit run; `NaN` when no digit follows. -/
def parseIntJS (s : String) : JSNum :=
  let cs := s.data.dropWhile fun c => c == ' ' || c == '\t' || c == '\n' || c == '\r'
  match cs with
  | '-' :: t => parseDigits t (-1)
  | '+' :: t => parseDigits t 1
  | t => parseDigits t 1

/-- The JSON body of a `POST /manage/api/databases` request as
`handleAddDatabase` builds it: only `name` and `type` are always present. -/
structure AddRequest where
  name : String
  type : String
  path : Option String := none
  host : Option String := none
  port : Option JSNum := none
  database : Option String := none
  username : Option String := none
  password : Option String := none
  deriving Repr, DecidableEq

/-- The operator's answers to the `prompt()` calls in `handleAddDatabase`;
a cancelled or empty prompt is the empty string (both are falsy in JS). -/
structure AddPrompts where
  name : String
  type : String
  path : String := ""
  host : String := ""
  port : String := ""
  database : String := ""
  username : String := ""
  password : String := ""
  deriving Repr, DecidableEq

/-- `handleAddDatabase` from `DatabasePanel.jsx`: returns the request body
handed to `addDatabase`, or `none` when the name or type prompt was
empty/cancelled. Every parameter field is added only when the corresponding
prompt answer is truthy; `port` is coerced with `parseInt`. -/
def handleAddDatabase (p : AddPrompts) : Option AddRequest :=
  if p.name = "" then none
  else if p.type = "" then none
  else if toLowerJS p.type = "sqlite" then
    some { name := p.name, type := p.type,
           path := if p.path != "" then some p.path else none }
  else
    some { name := p.name, type := p.type,
           host := if p.host != "" then some p.host else none,
           port := if p.port != "" then some (parseIntJS p.port) else none,
           database := if p.database != "" then some p.database else none,
           username := if p.username != "" then some p.username else none,
           password := if p.password != "" then some p.password else none }

/-- `formatDbForDisplay` from `DatabasePanel.jsx`: the key/value rows shown
in the details section. The password row shows a fixed mask when a truthy
password is present and `N/A` otherwise. -/
def formatDbForDisplay (db : Db) : List (String × String) :=
  let rows := [("ID", toString db.id), ("Name", db.name), ("Type", db.type)]
  let rows :=
    if db.type = "sqlite" then
      rows ++ [("Path", jsOr db.path "N/A")]
    else
      rows ++ [("Host", jsOr db.host "N/A"),
               ("Port", if intTruthy db.port then toString ((db.port).getD 0) else "N/A"),
               ("Database", jsOr db.database "N/A"),
               ("Username", jsOr db.username "N/A"),
               ("Password", if strTruthy db.password then "••••••••" else "N/A")]
  rows ++ [("Is Default", if db.is_default then "Yes" else "No"),
           ("Removable", if db.is_removable then "Yes" else "No")]

/-- Which action buttons the details section of `DatabasePanel.jsx` renders
for a selected descriptor. -/
structure DetailButtons where
  switchShown : Bool
  removeShown : Bool
  deriving Repr, DecidableEq

/-- The JSX conditions guarding the two action buttons: `Switch to This` is
rendered when the selection is not the current connection, `Remove` exactly
when `selectedDb.is_removable` — independently of the current id. -/
def detailButtons (selectedDb : Db) (currentDbId : Int) : DetailButtons :=
  { switchShown := selectedDb.id != currentDbId,
    removeShown := selectedDb.is_removable }

/-- A user record as the management API returns it and `App.jsx` renders it:
uid, username, the password hash, and the ordered list of the user's JWT
token ids. There is no plaintext password field. -/
structure UserRec where
  uid : Int
  username : String
  password_hash : String
  jwt_token_ids : List String
  deriving Repr, DecidableEq

/-- Payload of a successful `GET /manage/api/users` response; the `users`
field may be absent, in which case `App.jsx` falls back to `[]`. -/
structure UsersData where
  users : Option (List UserRec)
  deriving Repr, DecidableEq

/-- The token detail payload `handleViewToken` stores; `App.jsx` renders it
generically via `Object.entries`, so it is embedded as a key/value list. -/
def TokenView : Type := List (String × String)

instance : DecidableEq TokenView := by
  unfold TokenView
  infer_instance

/-- The `App` component state (second `App.jsx` version, the one wired to the
tabbed dashboard) relevant to the handlers. -/
structure AppState where
  users : List UserRec := []
  loading : Bool := false
  error : Option String := none
  selectedToken : Option TokenView := none

/-- `fetchUsers` from `App.jsx`: on `code = 0` stores `result.data.users || []`,
otherwise surfaces `result.message || 'Failed to fetch users'`. -/
def fetchUsers (s : AppState) (o : FetchOutcome UsersData) : AppState :=
  let s1 := { s with loading := true, error := none }
  let s2 :=
    match o with
    | .ok r =>
      if r.code = 0 then { s1 with users := r.data.users.getD [] }
      else { s1 with error := some (jsOr r.message "Failed to fetch users") }
    | .exn m => { s1 with error := some ("Error fetching users: " ++ m) }
  { s2 with loading := false }

/-- `handleCreateUser` from `App.jsx`: returns early, before any network
call, when the username or password prompt is empty/cancelled; otherwise
POSTs and on success refreshes the user list (un-awaited `fetchUsers()`,
applied here before the outer `finally`). -/
def handleCreateUser (s : AppState) (username password : String)
    (o : FetchOutcome Unit) (refresh : FetchOutcome UsersData) : AppState :=
  if username = "" then s
  else if password = "" then s
  else
    let s1 := { s with loading := true, error := none }
    let s2 :=
      match o with
      | .ok r =>
        if r.code = 0 then fetchUsers s1 refresh
        else { s1 with error := some (jsOr r.message "Failed to create user") }
      | .exn m => { s1 with error := some ("Error creating user: " ++ m) }
    { s2 with loading := false }

/-- `handleDeleteUser` from `App.jsx` (second version, no `confirm`). -/
def handleDeleteUser (s : AppState) (o : FetchOutcome Unit)
    (refresh : FetchOutcome UsersData) : AppState :=
  let s1 := { s with loading := true, error := none }
  let s2 :=
    match o with
    | .ok r =>
      if r.code = 0 then fetchUsers s1 refresh
      else { s1 with error := some (jsOr r.message "Failed to delete user") }
    | .exn m => { s1 with error := some ("Error deleting user: " ++ m) }
  { s2 with loading := false }

/-- `handleIssueToken` from `App.jsx`. -/
def handleIssueToken (s : AppState) (o : FetchOutcome Unit)
    (refresh : FetchOutcome UsersData) : AppState :=
  let s1 := { s with loading := true, error := none }
  let s2 :=
    match o with
    | .ok r =>
      if r.code = 0 then fetchUsers s1 refresh
      else { s1 with error := some (jsOr r.message "Failed to issue token") }
    | .exn m => { s1 with error := some ("Error issuing token: " ++ m) }
  { s2 with loading := false }

/-- `handleViewToken` from `App.jsx`: on success stores the token payload as
the selected token (the tab switch is a pure UI effect, not modelled). -/
def handleViewToken (s : AppState) (o : FetchOutcome TokenView) : AppState :=
  let s1 := { s with loading := true, error := none }
  let s2 :=
    match o with
    | .ok r =>
      if r.code = 0 then { s1 with selectedToken := some r.data }
      else { s1 with error := some (jsOr r.message "Failed to fetch token") }
    | .exn m => { s1 with error := some ("Error fetching token: " ++ m) }
  { s2 with loading := false }

/-- What the `JWT Tokens` cell of a user row renders in `App.jsx` (second
version): the token-id buttons when the list is non-empty, the `Issue`
button otherwise. -/
inductive TokenCell where
  | tokenIds (jtis : List String)
  | issueButton
  deriving Repr, DecidableEq

/-- The JSX ternary `user.jwt_token_ids.length > 0 ? ... : <Issue>`. -/
def renderTokenCell (u : UserRec) : TokenCell :=
  if u.jwt_token_ids.length > 0 then .tokenIds u.jwt_token_ids else .issueButton

/-- Per-server client state from `store.js` (a jotai atom's value). -/
structure ServerState where
  name : String
  port : Int
  isAlive : Option Bool := none
  lastChecked : Option String := none
  deriving Repr, DecidableEq

/-- Initial value of the `aux` server atom in `store.js`. -/
def auxServerAtom : ServerState := { name := "aux", port := 16203 }

/-- Initial value of the `grpc` server atom in `store.js`. -/
def grpcServerAtom : ServerState := { name := "grpc", port := 16200 }

/-- Initial value of the `http` server atom in `store.js`. -/
def httpServerAtom : ServerState := { name := "http", port := 16201 }

/-- Payload of a successful `GET /manage/api/server_status/:name` response. -/
structure StatusData where
  is_alive : Bool
  port : Int
  deriving Repr, DecidableEq

/-- `checkServerStatus` from `ServerStatus.jsx`: on `code = 0` records the
reported liveness and port; on a non-zero code or a thrown exception records
the server as not alive; every branch stamps `lastChecked` with the current
time. -/
def checkServerStatus (s : ServerState) (o : FetchOutcome StatusData)
    (now : String) : ServerState :=
  match o with
  | .ok r =>
    if r.code = 0 then
      { s with isAlive := some r.data.is_alive, port := r.data.port, lastChecked := some now }
    else
      { s with isAlive := some false, lastChecked := some now }
  | .exn _ => { s with isAlive := some false, lastChecked := some now }

/-- The login request timeout in milliseconds (`Login.jsx` line 18:
`setTimeout(() => controller.abort(), 5000)`). -/
def loginTimeoutMs : Nat := 5000

/-- Payload of a successful `POST /manage/login` response. -/
structure LoginEnvData where
  token : String
  deriving Repr, DecidableEq

/-- How `handleLogin`'s awaited work settles: a parsed envelope; an
`AbortError` (the 5000 ms timer fired and aborted the request before a
response arrived); or any other thrown error. -/
inductive LoginOutcome where
  | response (env : Envelope LoginEnvData)
  | abortErr
  | otherErr (msg : String)
  deriving Repr, DecidableEq

/-- Observable result of `handleLogin` in `Login.jsx`: the message shown,
the `(key, value)` written to `localStorage` if any, and the `loading` flag
after `finally`. -/
structure LoginResult where
  message : String
  storedToken : Option (String × String) := none
  loading : Bool := false
  deriving Repr, DecidableEq

/-- `handleLogin` from `Login.jsx`: on `code = 0` shows the success message
and persists the returned token under the `localStorage` key `authToken`;
on a non-zero code shows the response message; on abort shows a fixed
server-not-responding message; on any other error shows the error message. -/
def handleLogin (o : LoginOutcome) : LoginResult :=
  match o with
  | .response env =>
    if env.code = 0 then
      { message := "✓ Login successful!", storedToken := some ("authToken", env.data.token) }
    else
      { message := "✗ " ++ jsInterp env.message }
  | .abortErr =>
    { message := "✗ Server not responding. Please check if the server is running." }
  | .otherErr m => { message := "✗ Error: " ++ m }

/-- Error kinds of the spec's backend operations (§7 of the spec). -/
inductive CoreError where
  | notFoundError
  | notRemovableError
  | activeConnectionError
  | validationError
  deriving Repr, DecidableEq

deriving instance DecidableEq for Except

/-- Modelled from the spec: the Switchboard state — descriptors in insertion
order, the active id, and (for the claim that `remove` leaves backend data
untouched) the data stored in each backend, keyed by descriptor id. The
Switchboard implementation itself is not part of this repository snapshot. -/
structure SwitchboardState where
  connections : List Db
  active_id : Int
  backendData : List (Int × List String)
  deriving Repr, DecidableEq

/-- Modelled from the spec: `list()` returns all descriptors in insertion
order plus the active id, with no side effects (the state is returned
unchanged). The Switchboard implementation is missing from the snapshot. -/
def listConn (st : SwitchboardState) : (List Db × Int) × SwitchboardState :=
  ((st.connections, st.active_id), st)

/-- Modelled from the spec: `remove(id)` — `NotFoundError` if the id is
unknown, `NotRemovableError` if the descriptor has `is_removable = false`,
`ActiveConnectionError` if the id is the active id; otherwise it deletes the
descriptor and touches neither the active id nor any backend's stored data.
The Switchboard implementation is missing from the snapshot. -/
def removeConn (st : SwitchboardState) (i : Int) : Except CoreError SwitchboardState :=
  match st.connections.find? (fun c => c.id == i) with
  | none => .error .notFoundError
  | some c =>
    if c.is_removable = false then .error .notRemovableError
    else if i = st.active_id then .error .activeConnectionError
    else .ok { st with connections := st.connections.filter (fun c => c.id != i) }

/-- Modelled from the spec: the `add(descriptor)` required-field validation —
`sqlite` requires a path; the networked kinds `postgresql` and `mysql`
require host, port, database and username, password optional; any other kind
is unrecognized. Fails with `ValidationError`. The Switchboard implementation
is missing from the snapshot. -/
def validateAdd (r : AddRequest) : Except CoreError Unit :=
  if r.type = "sqlite" then
    if r.path.isSome then .ok () else .error .validationError
  else if r.type = "postgresql" ∨ r.type = "mysql" then
    if r.host.isSome && r.port.isSome && r.database.isSome && r.username.isSome then .ok ()
    else .error .validationError
  else .error .validationError

/-- Modelled from the spec: `listUsers()` returns all user records (each
carrying its `password_hash`; the store retains no plaintext password). The
Credential Store implementation is missing from the snapshot. -/
def listUsers (users : List UserRec) : List UserRec := users

/-- The JSON serialization of one user record on the `listUsers` wire, as
the fields `App.jsx` reads: uid, username, password_hash, jwt_token_ids —
and no plaintext password field. -/
def userWire (u : UserRec) : List (String × String) :=
  [("uid", toString u.uid),
   ("username", u.username),
   ("password_hash", u.password_hash),
   ("jwt_token_ids", String.intercalate "," u.jwt_token_ids)]

/-- A token record of the spec's Token Index. -/
structure TokenRec where
  jti : String
  uid : Int
  issued_at : Nat
  expires_at : Nat
  deriving Repr, DecidableEq

/-- Modelled from the spec: the joint Credential Store / Token Index state —
user records and the forward token store. The implementations are missing
from the snapshot. -/
structure AuthState where
  users : List UserRec
  tokens : List TokenRec
  deriving Repr, DecidableEq

/-- Modelled from the spec: `issue(uid, ttl, ...)` — `NotFoundError` if the
uid is absent; otherwise stores a new token record and appends the jti to
the owning user's token-id list, leaving every existing token in place
(no revocation on reissue). The Token Index implementation is missing from
the snapshot. -/
def issueToken (st : AuthState) (uid : Int) (jti : String) (now ttl : Nat) :
    Except CoreError AuthState :=
  if st.users.any (fun u => u.uid == uid) then
    .ok { users := st.users.map fun u =>
            if u.uid == uid then { u with jwt_token_ids := u.jwt_token_ids ++ [jti] } else u,
          tokens := st.tokens ++ [{ jti := jti, uid := uid, issued_at := now,
                                    expires_at := now + ttl }] }
  else .error .notFoundError

/-- A per-process liveness record of the spec's Health Registry. -/
structure HealthRecord where
  is_alive : Bool
  port : Int
  timestamp : Nat
  deriving Repr, DecidableEq

/-- Error kind of the Health Registry's `query`. -/
inductive HealthError where
  | unknownProcessError
  deriving Repr, DecidableEq

/-- Modelled from the spec: `query(processName)` returns the last-known
record, or `UnknownProcessError` if the process has never reported; it
applies no time-based liveness policy of its own — staleness is visible only
through the record's timestamp. The Health Registry implementation is
missing from the snapshot. -/
def queryHealth (reg : List (String × HealthRecord)) (pname : String) :
    Except HealthError HealthRecord :=
  match reg.find? (fun p => p.fst == pname) with
  | some p => .ok p.snd
  | none => .error .unknownProcessError

/-- A sqlite descriptor used as a concrete test value. -/
def dbSqliteW : Db :=
  { id := 1, name := "main", type := "sqlite", path := some "/data/auth.db",
    is_default := true, is_removable := false }

/-- A postgresql descriptor used as a concrete test value. -/
def dbPgW : Db :=
  { id := 2, name := "pg", type := "postgresql", host := some "db.local",
    port := some 5432, database := some "auth", username := some "svc",
    password := some "hunter2" }

/-- A concrete Switchboard state: sqlite default active, postgresql secondary,
both backends holding data. -/
def sbW : SwitchboardState :=
  { connections := [dbSqliteW, dbPgW], active_id := 1,
    backendData := [(1, ["users"]), (2, ["users"])] }

/-- A concrete successful database-list envelope. -/
def envDbListW : Envelope DbListData :=
  { code := 0, message := some "ok",
    data := { databases := [dbSqliteW, dbPgW], current_database_id := 1 } }

/-- C4: `list()` returns all descriptors in insertion order together with the
active id and has no side effects; the client obtains the descriptor array
and the active id from the same successful response. -/
theorem c4_list_insertion_order_and_active (st : SwitchboardState)
    (s : DbPanelState) (r : Envelope DbListData) (hr : r.code = 0) :
    listConn st = ((st.connections, st.active_id), st) ∧
    (fetchDatabases s (.ok r)).databases = r.data.databases ∧
    (fetchDatabases s (.ok r)).currentDbId = r.data.current_database_id := by
  refine ⟨rfl, ?_, ?_⟩ <;> simp [fetchDatabases, hr]

/-- C4 witness: a concrete successful listing fills both the descriptor list
and the current id from one envelope. -/
theorem c4_witness :
    (fetchDatabases {} (.ok envDbListW)).databases = [dbSqliteW, dbPgW] ∧
    (fetchDatabases {} (.ok envDbListW)).currentDbId = 1 := by
  have h := c4_list_insertion_order_and_active sbW {} envDbListW rfl
  exact ⟨h.2.1, h.2.2⟩

/-- C8: the rendered details of a descriptor do not depend on the value of a
non-empty password — only a fixed mask (or `N/A`) is ever shown in the
password row. -/
theorem c8_password_never_rendered (d : Db) (p1 p2 : String)
    (h1 : p1 ≠ "") (h2 : p2 ≠ "") (v : String) :
    formatDbForDisplay { d with password := some p1 } =
      formatDbForDisplay { d with password := some p2 } ∧
    (("Password", v) ∈ formatDbForDisplay d → v = "••••••••" ∨ v = "N/A") := by
  constructor
  · by_cases ht : d.type = "sqlite" <;>
      simp [formatDbForDisplay, ht, strTruthy, h1, h2]
  · intro hv
    by_cases ht : d.type = "sqlite" <;> simp [formatDbForDisplay, ht] at hv
    by_cases hp : strTruthy d.password <;> simp [hp] at hv <;> simp [hv]

/-- C8 witness: two concrete descriptors differing only in their non-empty
passwords render identically, and the concrete password row is the mask. -/
theorem c8_witness :
    formatDbForDisplay { dbPgW with password := some "hunter2" } =
      formatDbForDisplay { dbPgW with password := some "s3cret!" } ∧
    (("Password", "••••••••") ∈ formatDbForDisplay dbPgW →
      "••••••••" = "••••••••" ∨ "••••••••" = "N/A") := by
  have h := c8_password_never_rendered dbPgW "hunter2" "s3cret!"
      (by decide) (by decide) "••••••••"
  exact ⟨h.1, h.2⟩

/-- C9: every listed asynchronous handler resets the loading flag in its
`finally`, so the flag is false after the handler settles on any outcome
(success, non-zero envelope code, or thrown exception); for
`handleCreateUser` this covers the paths where both prompts were answered
and the network call actually runs. -/
theorem c9_loading_reset (s : DbPanelState) (a : AppState)
    (o1 : FetchOutcome DbListData) (o2 o3 o4 o5 o6 : FetchOutcome Unit)
    (refresh : FetchOutcome DbListData) (ou refu : FetchOutcome UsersData)
    (u p : String) (hu : u ≠ "") (hp : p ≠ "") :
    (fetchDatabases s o1).loading = false ∧
    (handleSwitchDatabase s o2 refresh).loading = false ∧
    (addDatabase s o3 refresh).loading = false ∧
    (handleRemoveDatabase s o4 refresh).loading = false ∧
    (fetchUsers a ou).loading = false ∧
    (handleCreateUser a u p o5 refu).loading = false ∧
    (handleDeleteUser a o6 refu).loading = false := by
  refine ⟨rfl, rfl, rfl, rfl, rfl, ?_, rfl⟩
  simp [handleCreateUser, hu, hp]

/-- C9 witness: after a thrown exception in `fetchDatabases` and a non-zero
envelope in `handleCreateUser`, the loading flag is false. -/
theorem c9_witness :
    (fetchDatabases {} (.exn "network down")).loading = false ∧
    (handleCreateUser {} "alice" "pw"
        (.ok { code := 3, message := some "duplicate username", data := () })
        (.exn "refresh failed")).loading = false := by
  have h := c9_loading_reset ({} : DbPanelState) ({} : AppState)
      (.exn "network down") (.exn "x") (.exn "x") (.exn "x")
      (.ok { code := 3, message := some "duplicate username", data := () })
      (.exn "x") (.exn "x")
      (.ok { code := 0, message := none, data := { users := some [] } })
      (.exn "refresh failed")
      "alice" "pw" (by decide) (by decide)
  exact ⟨h.1, h.2.2.2.2.2.1⟩

/-- C10: the login request carries a 5000 ms abort timeout; an abort is
reported with the fixed server-not-responding message (derived from no
response) and stores no token; a `code = 0` response persists the returned
token to `localStorage` under the key `authToken`; any other thrown error is
reported with its own message. -/
theorem c10_login_timeout_and_token (env : Envelope LoginEnvData) (m : String) :
    loginTimeoutMs = 5000 ∧
    handleLogin .abortErr =
      { message := "✗ Server not responding. Please check if the server is running.",
        storedToken := none, loading := false } ∧
    (env.code = 0 → handleLogin (.response env) =
      { message := "✓ Login successful!",
        storedToken := some ("authToken", env.data.token), loading := false }) ∧
    (env.code ≠ 0 → (handleLogin (.response env)).storedToken = none) ∧
    (handleLogin (.otherErr m)).message = "✗ Error: " ++ m := by
  refine ⟨rfl, rfl, fun h => ?_, fun h => ?_, rfl⟩ <;> simp [handleLogin, h]

/-- C10 witness: a concrete successful login stores its token under
`authToken`, and the abort branch yields the fixed message. -/
theorem c10_witness :
    handleLogin (.response { code := 0, message := none, data := { token := "tok-1" } }) =
      { message := "✓ Login successful!",
        storedToken := some ("authToken", "tok-1"), loading := false } ∧
    (handleLogin .abortErr).message =
      "✗ Server not responding. Please check if the server is running." := by
  have h := c10_login_timeout_and_token
      { code := 0, message := none, data := { token := "tok-1" } } "x"
  exact ⟨h.2.2.1 rfl, congrArg LoginResult.message h.2.1⟩

/-- A concrete failing envelope whose message field is the empty string. -/
def envEmptyMsgW : Envelope DbListData :=
  { code := 1, message := some "",
    data := { databases := [], current_database_id := 0 } }

/-- C1 counterexample: for a response with `code = 1` and `message = ""`, the
client surfaces the fixed fallback `Failed to fetch databases`, not the
envelope's message string. -/
theorem c1_counterexample :
    envEmptyMsgW.code ≠ 0 ∧ envEmptyMsgW.message = some "" ∧
    (fetchDatabases {} (.ok envEmptyMsgW)).error = some "Failed to fetch databases" ∧
    (fetchDatabases {} (.ok envEmptyMsgW)).error ≠ some "" := by decide

/-- C1 (amended): every management operation's response is an envelope with a
numeric code and a message; the client runs the success path exactly when
`code = 0` — for the list/fetch operations it stores the payload with no
error, for the mutating operations it clears the error and fires the
refresh, and nothing else; when `code ≠ 0` it surfaces the envelope message
if that is a non-empty string and a fixed per-operation fallback otherwise
(`jsOr`). -/
theorem c1_envelope_code_dispatch (s : DbPanelState) (a : AppState)
    (r1 : Envelope DbListData) (r2 r3 r4 r5 r6 r7 : Envelope Unit)
    (ru : Envelope UsersData) (rv : Envelope TokenView)
    (refresh : FetchOutcome DbListData) (refu : FetchOutcome UsersData)
    (u p : String) (hu : u ≠ "") (hp : p ≠ "") :
    (r1.code = 0 → (fetchDatabases s (.ok r1)).error = none) ∧
    (r1.code ≠ 0 → (fetchDatabases s (.ok r1)).error =
       some (jsOr r1.message "Failed to fetch databases")) ∧
    (r2.code = 0 → handleSwitchDatabase s (.ok r2) refresh =
       { fetchDatabases { s with loading := true, error := none } refresh with
         loading := false }) ∧
    (r2.code ≠ 0 → (handleSwitchDatabase s (.ok r2) refresh).error =
       some (jsOr r2.message "Failed to switch database")) ∧
    (r3.code = 0 → addDatabase s (.ok r3) refresh =
       { fetchDatabases { s with loading := true, error := none } refresh with
         loading := false }) ∧
    (r3.code ≠ 0 → (addDatabase s (.ok r3) refresh).error =
       some (jsOr r3.message "Failed to add database")) ∧
    (r4.code = 0 → handleRemoveDatabase s (.ok r4) refresh =
       { fetchDatabases { s with loading := true, error := none, selectedDb := none }
           refresh with loading := false }) ∧
    (r4.code ≠ 0 → (handleRemoveDatabase s (.ok r4) refresh).error =
       some (jsOr r4.message "Failed to remove database")) ∧
    (ru.code = 0 → (fetchUsers a (.ok ru)).error = none) ∧
    (ru.code ≠ 0 → (fetchUsers a (.ok ru)).error =
       some (jsOr ru.message "Failed to fetch users")) ∧
    (r5.code = 0 → handleCreateUser a u p (.ok r5) refu =
       { fetchUsers { a with loading := true, error := none } refu with
         loading := false }) ∧
    (r5.code ≠ 0 → (handleCreateUser a u p (.ok r5) refu).error =
       some (jsOr r5.message "Failed to create user")) ∧
    (r6.code = 0 → handleDeleteUser a (.ok r6) refu =
       { fetchUsers { a with loading := true, error := none } refu with
         loading := false }) ∧
    (r6.code ≠ 0 → (handleDeleteUser a (.ok r6) refu).error =
       some (jsOr r6.message "Failed to delete user")) ∧
    (r7.code = 0 → handleIssueToken a (.ok r7) refu =
       { fetchUsers { a with loading := true, error := none } refu with
         loading := false }) ∧
    (r7.code ≠ 0 → (handleIssueToken a (.ok r7) refu).error =
       some (jsOr r7.message "Failed to issue token")) ∧
    (rv.code = 0 → (handleViewToken a (.ok rv)).selectedToken = some rv.data ∧
       (handleViewToken a (.ok rv)).error = none) ∧
    (rv.code ≠ 0 → (handleViewToken a (.ok rv)).error =
       some (jsOr rv.message "Failed to fetch token")) := by
  refine ⟨fun h => ?_, fun h => ?_, fun h => ?_, fun h => ?_, fun h => ?_,
         fun h => ?_, fun h => ?_, fun h => ?_, fun h => ?_, fun h => ?_,
         fun h => ?_, fun h => ?_, fun h => ?_, fun h => ?_, fun h => ?_,
         fun h => ?_, fun h => ⟨?_, ?_⟩, fun h => ?_⟩
  · simp [fetchDatabases, h]
  · simp [fetchDatabases, h]
  · simp [handleSwitchDatabase, h]
  · simp [handleSwitchDatabase, h]
  · simp [addDatabase, h]
  · simp [addDatabase, h]
  · simp [handleRemoveDatabase, h]
  · simp [handleRemoveDatabase, h]
  · simp [fetchUsers, h]
  · simp [fetchUsers, h]
  · simp [handleCreateUser, hu, hp, h]
  · simp [handleCreateUser, hu, hp, h]
  · simp [handleDeleteUser, h]
  · simp [handleDeleteUser, h]
  · simp [handleIssueToken, h]
  · simp [handleIssueToken, h]
  · simp [handleViewToken, h]
  · simp [handleViewToken, h]
  · simp [handleViewToken, h]

/-- A concrete failing envelope with a non-empty message. -/
def envBoomW : Envelope Unit := { code := 2, message := some "boom", data := () }

/-- A concrete successful envelope for the mutating operations. -/
def envZeroW : Envelope Unit := { code := 0, message := none, data := () }

/-- C1 witness: a concrete switch failure with message `boom` surfaces
exactly `boom`, and a concrete `code = 0` switch response runs the success
path (clears the error and fires the refresh). -/
theorem c1_witness :
    (handleSwitchDatabase {} (.ok envBoomW) (.exn "skip")).error = some "boom" ∧
    handleSwitchDatabase {} (.ok envZeroW) (.ok envDbListW) =
      { fetchDatabases { ({} : DbPanelState) with loading := true, error := none }
          (.ok envDbListW) with loading := false } := by
  have h := c1_envelope_code_dispatch ({} : DbPanelState) ({} : AppState)
      envDbListW envBoomW envBoomW envBoomW envBoomW envBoomW envBoomW
      { code := 0, message := none, data := { users := some [] } }
      { code := 0, message := none, data := ([] : TokenView) }
      (.exn "skip") (.exn "skip") "alice" "pw" (by decide) (by decide)
  have h0 := c1_envelope_code_dispatch ({} : DbPanelState) ({} : AppState)
      envDbListW envZeroW envZeroW envZeroW envZeroW envZeroW envZeroW
      { code := 0, message := none, data := { users := some [] } }
      { code := 0, message := none, data := ([] : TokenView) }
      (.ok envDbListW) (.exn "skip") "alice" "pw" (by decide) (by decide)
  exact ⟨h.2.2.2.1 (by decide), h0.2.2.1 rfl⟩

/-- C2: the spec-modelled `remove(id)` fails with `NotFoundError` on an
unknown id, `NotRemovableError` on a non-removable descriptor,
`ActiveConnectionError` on the active id, and otherwise deletes exactly the
descriptor, leaving the active id and every backend's stored data
untouched; the client renders the Remove action exactly when the selected
descriptor is removable, independently of the current active id. -/
theorem c2_remove_policy (st : SwitchboardState) (i : Int) (d : Db) (cur : Int) :
    (st.connections.find? (fun c => c.id == i) = none →
       removeConn st i = .error .notFoundError) ∧
    (∀ c, st.connections.find? (fun c' => c'.id == i) = some c →
       c.is_removable = false → removeConn st i = .error .notRemovableError) ∧
    (∀ c, st.connections.find? (fun c' => c'.id == i) = some c →
       c.is_removable = true → i = st.active_id →
       removeConn st i = .error .activeConnectionError) ∧
    (∀ c, st.connections.find? (fun c' => c'.id == i) = some c →
       c.is_removable = true → i ≠ st.active_id →
       removeConn st i =
         .ok { st with connections := st.connections.filter (fun c' => c'.id != i) }) ∧
    (∀ st', removeConn st i = .ok st' →
       st'.backendData = st.backendData ∧ st'.active_id = st.active_id) ∧
    (detailButtons d cur).removeShown = d.is_removable := by
  refine ⟨?_, ?_, ?_, ?_, ?_, rfl⟩
  · intro h
    unfold removeConn
    rw [h]
  · intro c hc hrem
    unfold removeConn
    rw [hc]
    simp [hrem]
  · intro c hc hrem hact
    unfold removeConn
    rw [hc]
    simp [hrem, hact]
  · intro c hc hrem hact
    unfold removeConn
    rw [hc]
    simp [hrem, hact]
  · intro st' h
    unfold removeConn at h
    split at h
    · simp at h
    · split at h
      · simp at h
      · split at h
        · simp at h
        · injection h with h'
          subst h'
          exact ⟨rfl, rfl⟩

/-- C2 witness: removing the non-active, removable postgresql descriptor
succeeds and the Remove button is shown for it. -/
theorem c2_witness :
    removeConn sbW 2 =
      .ok { sbW with connections := sbW.connections.filter (fun c => c.id != 2) } ∧
    (detailButtons dbPgW 1).removeShown = true := by
  have h := c2_remove_policy sbW 2 dbPgW 1
  exact ⟨h.2.2.2.1 dbPgW (by decide) (by decide) (by decide), h.2.2.2.2.2⟩

/-- The operator enters only a name and the kind `sqlite`, leaving the path
prompt empty. -/
def addPromptsSqliteW : AddPrompts := { name := "db1", type := "sqlite" }

/-- C3 counterexample: with the path prompt left empty the client still sends
the add request, and that request for kind sqlite carries no path field —
which the spec-modelled validation then rejects. -/
theorem c3_counterexample :
    handleAddDatabase addPromptsSqliteW =
      some { name := "db1", type := "sqlite", path := none } ∧
    validateAdd { name := "db1", type := "sqlite", path := none } =
      .error .validationError := by decide

/-- C3 (amended): every add request contains `name` and `type`; each
kind-specific parameter field is present exactly when the operator's answer
to that prompt was non-empty (with `port` coerced by JS `parseInt`), sqlite
taking only `path` and other kinds only the network fields; the
spec-modelled `add` validation succeeds exactly when the kind is recognized
and all its required fields are present. -/
theorem c3_add_request_fields (p : AddPrompts) (r q : AddRequest)
    (hn : p.name ≠ "") (ht : p.type ≠ "")
    (hr : handleAddDatabase p = some r) :
    r.name = p.name ∧ r.type = p.type ∧
    (toLowerJS p.type = "sqlite" →
      r.path = (if p.path != "" then some p.path else none) ∧
      r.host = none ∧ r.port = none ∧ r.database = none ∧
      r.username = none ∧ r.password = none) ∧
    (toLowerJS p.type ≠ "sqlite" →
      r.path = none ∧
      r.host = (if p.host != "" then some p.host else none) ∧
      r.port = (if p.port != "" then some (parseIntJS p.port) else none) ∧
      r.database = (if p.database != "" then some p.database else none) ∧
      r.username = (if p.username != "" then some p.username else none) ∧
      r.password = (if p.password != "" then some p.password else none)) ∧
    (validateAdd q = .ok () ↔
      ((q.type = "sqlite" ∧ q.path.isSome = true) ∨
       ((q.type = "postgresql" ∨ q.type = "mysql") ∧
        q.host.isSome = true ∧ q.port.isSome = true ∧
        q.database.isSome = true ∧ q.username.isSome = true))) := by
  have hval : validateAdd q = .ok () ↔
      ((q.type = "sqlite" ∧ q.path.isSome = true) ∨
       ((q.type = "postgresql" ∨ q.type = "mysql") ∧
        q.host.isSome = true ∧ q.port.isSome = true ∧
        q.database.isSome = true ∧ q.username.isSome = true)) := by
    by_cases h1 : q.type = "sqlite"
    · by_cases h2 : q.path.isSome <;> simp [validateAdd, h1, h2]
    · by_cases h3 : q.type = "postgresql" ∨ q.type = "mysql"
      · simp [validateAdd, h1, h3, Bool.and_eq_true, Option.ne_none_iff_isSome]
      · simp [validateAdd, h1, h3]
  unfold handleAddDatabase at hr
  rw [if_neg hn, if_neg ht] at hr
  by_cases hs : toLowerJS p.type = "sqlite"
  · rw [if_pos hs] at hr
    injection hr with hr
    subst hr
    exact ⟨rfl, rfl, fun _ => ⟨rfl, rfl, rfl, rfl, rfl, rfl⟩,
           fun hcon => absurd hs hcon, hval⟩
  · rw [if_neg hs] at hr
    injection hr with hr
    subst hr
    exact ⟨rfl, rfl, fun hcon => absurd hcon hs,
           fun _ => ⟨rfl, rfl, rfl, rfl, rfl, rfl⟩, hval⟩

/-- Networked add prompts with every field answered except the password. -/
def addPromptsPgW : AddPrompts :=
  { name := "pg", type := "postgresql", host := "db.local", port := "5432",
    database := "auth", username := "svc" }

/-- The request `handleAddDatabase` builds from `addPromptsPgW`. -/
def addReqPgW : AddRequest :=
  { name := "pg", type := "postgresql", host := some "db.local",
    port := some (.int 5432), database := some "auth", username := some "svc" }

/-- C3 witness: the concrete networked request carries the parseInt-coerced
port and passes the spec-modelled validation without a password. -/
theorem c3_witness :
    addReqPgW.port = some (parseIntJS "5432") ∧
    validateAdd addReqPgW = .ok () := by
  have h := c3_add_request_fields addPromptsPgW addReqPgW addReqPgW
      (by decide) (by decide) (by decide)
  refine ⟨?_, h.2.2.2.2.mpr (Or.inr (by decide))⟩
  exact ((h.2.2.2.1 (by decide)).2.2.1).trans (by decide)

/-- C5: the spec-modelled `listUsers` returns every stored user record; each
record's wire serialization carries exactly the fields uid, username,
password_hash and the ordered jwt token-id list — the password hash is
always present and no plaintext password field exists. -/
theorem c5_listUsers_hash_no_plaintext (users : List UserRec) (u : UserRec)
    (hu : u ∈ listUsers users) :
    u ∈ users ∧
    (userWire u).map Prod.fst = ["uid", "username", "password_hash", "jwt_token_ids"] ∧
    ("password_hash", u.password_hash) ∈ userWire u ∧
    (∀ v, ("password", v) ∉ userWire u) := by
  refine ⟨hu, rfl, by simp [userWire], ?_⟩
  intro v hv
  simp [userWire] at hv

/-- A concrete user record with one live token. -/
def userW : UserRec :=
  { uid := 1, username := "alice", password_hash := "$2b$12$abc",
    jwt_token_ids := ["jti-1"] }

/-- C5 witness: the concrete user's wire record carries the password hash and
no plaintext password field. -/
theorem c5_witness :
    ("password_hash", userW.password_hash) ∈ userWire userW ∧
    ("password", "pw-plain") ∉ userWire userW := by
  have h := c5_listUsers_hash_no_plaintext [userW] userW (by decide)
  exact ⟨h.2.2.1, h.2.2.2 "pw-plain"⟩

/-- C6: the spec-modelled `issue` appends the new jti to the owning user's
token-id list and keeps every pre-existing token record, so a user can hold
several live tokens at once; the client renders the Issue action exactly
when the user's token-id list is empty. -/
theorem c6_issue_keeps_existing_tokens (st : AuthState) (uid : Int)
    (jti : String) (now ttl : Nat) (u : UserRec)
    (hm : st.users.any (fun v => v.uid == uid) = true) :
    issueToken st uid jti now ttl =
      .ok { users := st.users.map fun v =>
              if v.uid == uid then { v with jwt_token_ids := v.jwt_token_ids ++ [jti] } else v,
            tokens := st.tokens ++ [{ jti := jti, uid := uid, issued_at := now,
                                      expires_at := now + ttl }] } ∧
    (∀ t ∈ st.tokens, t ∈ st.tokens ++ [({ jti := jti, uid := uid, issued_at := now,
                                           expires_at := now + ttl } : TokenRec)]) ∧
    (u ∈ st.users → u.uid = uid →
      { u with jwt_token_ids := u.jwt_token_ids ++ [jti] } ∈
        st.users.map fun v =>
          if v.uid == uid then { v with jwt_token_ids := v.jwt_token_ids ++ [jti] } else v) ∧
    (renderTokenCell u = .issueButton ↔ u.jwt_token_ids = []) := by
  refine ⟨?_, ?_, ?_, ?_⟩
  · unfold issueToken
    rw [if_pos hm]
  · intro t ht
    exact List.mem_append_left _ ht
  · intro hu hud
    refine List.mem_map.mpr ⟨u, hu, ?_⟩
    simp [hud]
  · constructor
    · intro hcell
      by_contra hne
      have hpos : u.jwt_token_ids.length > 0 := List.length_pos.mpr hne
      simp [renderTokenCell, hpos] at hcell
    · intro he
      simp [renderTokenCell, he]

/-- A concrete auth state in which alice already holds one live token. -/
def authStW : AuthState :=
  { users := [userW],
    tokens := [{ jti := "jti-1", uid := 1, issued_at := 0, expires_at := 100 }] }

/-- C6 witness: issuing a second token to alice keeps `jti-1` and leaves her
with the two-element token-id list — no revocation on reissue. -/
theorem c6_witness :
    issueToken authStW 1 "jti-2" 50 100 =
      .ok { users := [{ userW with jwt_token_ids := ["jti-1", "jti-2"] }],
            tokens := [{ jti := "jti-1", uid := 1, issued_at := 0, expires_at := 100 },
                       { jti := "jti-2", uid := 1, issued_at := 50, expires_at := 150 }] } ∧
    renderTokenCell userW ≠ .issueButton := by
  have h := c6_issue_keeps_existing_tokens authStW 1 "jti-2" 50 100 userW (by decide)
  refine ⟨h.1.trans (by decide), fun hc => ?_⟩
  have : userW.jwt_token_ids = [] := h.2.2.2.mp hc
  exact absurd this (by decide)

/-- A concrete health registry in which only `aux` has reported. -/
def healthRegW : List (String × HealthRecord) :=
  [("aux", { is_alive := true, port := 16203, timestamp := 42 })]

/-- C7: the spec-modelled `query` returns the last-known record, or
`UnknownProcessError` for a process that never reported, with no time-based
policy of its own; the client stamps `lastChecked` on every completed check,
records the server not alive on a non-zero code or a thrown exception, and
adopts the reported liveness and port on success; the three registered
processes are aux (16203), grpc (16200) and http (16201). -/
theorem c7_health_query_and_check (reg : List (String × HealthRecord))
    (pname : String) (s : ServerState) (o : FetchOutcome StatusData)
    (now : String) :
    (∀ q, reg.find? (fun e => e.fst == pname) = some q →
       queryHealth reg pname = .ok q.snd) ∧
    (reg.find? (fun e => e.fst == pname) = none →
       queryHealth reg pname = .error .unknownProcessError) ∧
    (checkServerStatus s o now).lastChecked = some now ∧
    (∀ r, o = .ok r → r.code = 0 →
       checkServerStatus s o now =
         { s with isAlive := some r.data.is_alive, port := r.data.port,
                  lastChecked := some now }) ∧
    (∀ r, o = .ok r → r.code ≠ 0 → (checkServerStatus s o now).isAlive = some false) ∧
    (∀ m, o = .exn m → (checkServerStatus s o now).isAlive = some false) ∧
    ((auxServerAtom.name, auxServerAtom.port) = ("aux", 16203) ∧
     (grpcServerAtom.name, grpcServerAtom.port) = ("grpc", 16200) ∧
     (httpServerAtom.name, httpServerAtom.port) = ("http", 16201)) := by
  refine ⟨?_, ?_, ?_, ?_, ?_, ?_, ⟨rfl, rfl, rfl⟩⟩
  · intro q hq
    unfold queryHealth
    rw [hq]
  · intro hq
    unfold queryHealth
    rw [hq]
  · cases o with
    | ok r =>
      by_cases h : r.code = 0 <;> simp [checkServerStatus, h]
    | exn m => simp [checkServerStatus]
  · intro r hr h
    subst hr
    simp [checkServerStatus, h]
  · intro r hr h
    subst hr
    simp [checkServerStatus, h]
  · intro m hm
    subst hm
    simp [checkServerStatus]

/-- C7 witness: querying the reported process returns its record, querying an
unreported one fails, and a concrete failed client check marks the server
down while stamping the check time. -/
theorem c7_witness :
    queryHealth healthRegW "aux" =
      .ok { is_alive := true, port := 16203, timestamp := 42 } ∧
    queryHealth healthRegW "grpc" = .error .unknownProcessError ∧
    (checkServerStatus auxServerAtom (.exn "timeout") "2026-10-12T00:00:00Z").isAlive =
      some false ∧
    (checkServerStatus auxServerAtom (.exn "timeout") "2026-10-12T00:00:00Z").lastChecked =
      some "2026-10-12T00:00:00Z" := by
  have h1 := c7_health_query_and_check healthRegW "aux" auxServerAtom
      (.exn "timeout") "2026-10-12T00:00:00Z"
  have h2 := c7_health_query_and_check healthRegW "grpc" auxServerAtom
      (.exn "timeout") "2026-10-12T00:00:00Z"
  exact ⟨h1.1 ("aux", { is_alive := true, port := 16203, timestamp := 42 }) (by decide),
         h2.2.1 (by decide),
         h1.2.2.2.2.2.1 "timeout" rfl,
         h1.2.2.1⟩

end AuthUI
